import Mathlib

/-!
Shallow embedding of the BlueClaw graduation discovery / filtering / scoring
engine and its autopost schedulers, translated from
`src/lib/clawcord/autopost-service.ts` (combined file containing
`AutopostService`, `DexScreenerProvider`, `GraduationWatcher`,
`DEFAULT_GRADUATION_FILTER`) and the Telegram autopost service.

Conventions of the embedding:
* JavaScript numbers are modelled as rationals (`ℚ`); holder counts as `ℕ`.
* Optional fields (`pair.liquidity?.usd` etc.) are `Option ℚ`; the JS
  coalescing `x || 0` is `orZero` (on numbers, `x || 0` maps both
  `undefined` and `0` to `0`, which agrees with `Option.getD 0`), and
  `x || d` for a nonzero default `d` is `orDefault` (`undefined` and `0`
  both map to `d`).
* `Date.now()` is an explicit parameter `now` (epoch milliseconds).
* The human-readable failure/warning message strings are modelled as an
  inductive type whose constructors carry the interpolated measured values.
-/

namespace BlueClaw

/-- JS `x || 0` on an optional number. -/
def orZero (o : Option ℚ) : ℚ := o.getD 0

/-- JS `x || d` on an optional number with a nonzero default `d`:
`undefined` and `0` both fall back to `d`. -/
def orDefault (o : Option ℚ) (d : ℚ) : ℚ :=
  match o with
  | none => d
  | some x => if x = 0 then d else x

/-- The fields of a DexScreener market pair that the core reads
(`DexScreenerPair` in `types`). `priceUsd` is string-encoded in the wire
format; its `parseFloat` is abstracted to the parsed rational. `info` is
collapsed to the socials/websites lists the code inspects. -/
structure DexScreenerPair where
  baseTokenAddress : String
  baseTokenSymbol : String
  baseTokenName : String
  pairAddress : String
  dexId : String
  chainId : String
  priceUsd : ℚ
  liquidityUsd : Option ℚ
  marketCap : Option ℚ
  volumeM5 : Option ℚ
  volumeH1 : Option ℚ
  volumeH24 : Option ℚ
  priceChangeM5 : Option ℚ
  priceChangeH24 : Option ℚ
  txnsM5Buys : Option ℚ
  txnsM5Sells : Option ℚ
  pairCreatedAt : ℚ
  infoSocials : Option (List String)
  infoWebsites : Option (List String)
  infoImageUrl : Option String
deriving DecidableEq, Repr

/-- The fields of `TokenMetrics` the core writes and reads. -/
structure TokenMetrics where
  mint : String
  symbol : String
  name : String
  price : ℚ
  priceChange24h : ℚ
  volume24h : ℚ
  volumeChange : ℚ
  liquidity : ℚ
  liquidityChange : ℚ
  holders : ℕ
  holdersChange : ℚ
  topHolderConcentration : ℚ
  tokenAgeHours : ℚ
deriving DecidableEq, Repr

/-- Translation of `DexScreenerProvider.pairToMetrics` (pure part of the
Metrics Mapper). `now` stands for `Date.now()`. -/
def pairToMetrics (now : ℚ) (pair : DexScreenerPair) : TokenMetrics :=
  let ageMs := now - pair.pairCreatedAt
  let ageHours := ageMs / (1000 * 60 * 60)
  { mint := pair.baseTokenAddress
    symbol := pair.baseTokenSymbol
    name := pair.baseTokenName
    price := pair.priceUsd
    priceChange24h := orZero pair.priceChangeH24
    volume24h := orZero pair.volumeH24
    volumeChange :=
      if orZero pair.volumeH1 ≠ 0 then
        ((orZero pair.volumeH1 * 24) / (orDefault pair.volumeH24 1) - 1) * 100
      else 0
    liquidity := orZero pair.liquidityUsd
    liquidityChange := 0
    holders := 0
    holdersChange := 0
    topHolderConcentration := 0
    tokenAgeHours := ageHours }

/-- Translation of `GraduationFilter` (`FilterPolicy` in the spec).
`minLiquidityRatio` and `minBuySellRatio` are optional in the source type
and read through `|| 8` and `|| 0.3`. -/
structure GraduationFilter where
  minLiquidity : ℚ
  minVolume5m : ℚ
  minHolders : ℕ
  maxAgeMinutes : ℚ
  excludeRuggedDeployers : Bool
  minLiquidityRatio : Option ℚ
  minBuySellRatio : Option ℚ
deriving DecidableEq, Repr

/-- Translation of `DEFAULT_GRADUATION_FILTER`. -/
def DEFAULT_GRADUATION_FILTER : GraduationFilter :=
  { minLiquidity := 8000
    minVolume5m := 200
    minHolders := 75
    maxAgeMinutes := 60
    excludeRuggedDeployers := true
    minLiquidityRatio := some 8
    minBuySellRatio := some (3/10) }

/-- Translation of `AGGRESSIVE_GRADUATION_FILTER`. -/
def AGGRESSIVE_GRADUATION_FILTER : GraduationFilter :=
  { minLiquidity := 8000
    minVolume5m := 500
    minHolders := 75
    maxAgeMinutes := 20
    excludeRuggedDeployers := true
    minLiquidityRatio := some 8
    minBuySellRatio := some (3/10) }

/-- Translation of `CONSERVATIVE_GRADUATION_FILTER`. -/
def CONSERVATIVE_GRADUATION_FILTER : GraduationFilter :=
  { minLiquidity := 20000
    minVolume5m := 2000
    minHolders := 150
    maxAgeMinutes := 120
    excludeRuggedDeployers := true
    minLiquidityRatio := some 15
    minBuySellRatio := some (8/10) }

/-- The strings pushed into `failures` by `GraduationWatcher.applyFilter`
and into `warnings` by `GraduationWatcher.generateWarnings`, modelled as
tagged values carrying the interpolated measurements. The first eight
constructors are the filter failures (in source order); the remaining
ones are the advisory warning badges. -/
inductive FilterFailure where
  | liquidityBelow (liq minLiq : ℚ)
  | volume5mBelow (vol minVol : ℚ)
  | ageAbove (ageMinutes maxAge : ℚ)
  | holdersBelow (holders minHolders : ℕ)
  | concentrationAbove (conc : ℚ)
  | liqRatioBelow (r minR : ℚ)
  | buySellBelow (r minR : ℚ)
  | washTradingMcap (mcap : ℚ)
  | warnLiqDrained
  | warnLowLiqRatio
  | warnTop10Above60
  | warnTop10Above40
  | warnNoVolume
  | warnHeavySellPressure
  | warnLowLiq5k
  | warnNoSocials
deriving DecidableEq, Repr

namespace Filter

/-- Liquidity check of `applyFilter` (source lines: `(pair.liquidity?.usd
|| 0) < filter.minLiquidity`). -/
def liquidityRule (pair : DexScreenerPair) (filter : GraduationFilter) :
    List FilterFailure :=
  if orZero pair.liquidityUsd < filter.minLiquidity then
    [.liquidityBelow (orZero pair.liquidityUsd) filter.minLiquidity]
  else []

/-- The 5-minute volume check of `applyFilter`. -/
def volumeRule (pair : DexScreenerPair) (filter : GraduationFilter) :
    List FilterFailure :=
  if orZero pair.volumeM5 < filter.minVolume5m then
    [.volume5mBelow (orZero pair.volumeM5) filter.minVolume5m]
  else []

/-- The age check of `applyFilter`; `ageMinutes = (now - pairCreatedAt)
/ 60000`. -/
def ageRule (now : ℚ) (pair : DexScreenerPair) (filter : GraduationFilter) :
    List FilterFailure :=
  let ageMinutes := (now - pair.pairCreatedAt) / (1000 * 60)
  if ageMinutes > filter.maxAgeMinutes then
    [.ageAbove ageMinutes filter.maxAgeMinutes]
  else []

/-- The holder-count check of `applyFilter`: fails only when
`metrics.holders > 0 && metrics.holders < filter.minHolders`. -/
def holdersRule (metrics : TokenMetrics) (filter : GraduationFilter) :
    List FilterFailure :=
  if 0 < metrics.holders ∧ metrics.holders < filter.minHolders then
    [.holdersBelow metrics.holders filter.minHolders]
  else []

/-- The hard-coded top-holder concentration ceiling of `applyFilter`:
`metrics.topHolderConcentration > 50`. -/
def concentrationRule (metrics : TokenMetrics) : List FilterFailure :=
  if metrics.topHolderConcentration > 50 then
    [.concentrationAbove metrics.topHolderConcentration]
  else []

/-- The liquidity-to-market-cap ratio check of `applyFilter`: evaluated
only when `mcap > 0 && liq > 0`, against `filter.minLiquidityRatio || 8`,
with a strict `<` comparison. -/
def liqRatioRule (pair : DexScreenerPair) (filter : GraduationFilter) :
    List FilterFailure :=
  let mcap := orZero pair.marketCap
  let liq := orZero pair.liquidityUsd
  let minLiqRatio := orDefault filter.minLiquidityRatio 8
  if mcap > 0 ∧ liq > 0 then
    if (liq / mcap) * 100 < minLiqRatio then
      [.liqRatioBelow ((liq / mcap) * 100) minLiqRatio]
    else []
  else []

/-- The buy/sell ratio check of `applyFilter`: evaluated only when
`sells > 0`, against `filter.minBuySellRatio || 0.3`. -/
def buySellRule (pair : DexScreenerPair) (filter : GraduationFilter) :
    List FilterFailure :=
  let buys := orZero pair.txnsM5Buys
  let sells := orZero pair.txnsM5Sells
  let minBuySell := orDefault filter.minBuySellRatio (3/10)
  if sells > 0 then
    if buys / sells < minBuySell then
      [.buySellBelow (buys / sells) minBuySell]
    else []
  else []

/-- The extreme-outlier wash-trading guard of `applyFilter`:
`mcap > 5000000 && ageMinutes < 15 && vol1h < mcap * 0.1`. -/
def washTradingRule (now : ℚ) (pair : DexScreenerPair) :
    List FilterFailure :=
  let mcap := orZero pair.marketCap
  let ageMinutes := (now - pair.pairCreatedAt) / (1000 * 60)
  if mcap > 5000000 ∧ ageMinutes < 15 then
    if orZero pair.volumeH1 < mcap * (1/10) then
      [.washTradingMcap mcap]
    else []
  else []

end Filter

/-- Result shape of `applyFilter`: `{ passes, failures }`. -/
structure FilterResult where
  passes : Bool
  failures : List FilterFailure
deriving DecidableEq, Repr

/-- Translation of `GraduationWatcher.applyFilter`. The source pushes
failures into one array in rule order; here the per-rule lists are
concatenated in the same order. `passes := failures.length === 0`. -/
def applyFilter (now : ℚ) (pair : DexScreenerPair) (metrics : TokenMetrics)
    (filter : GraduationFilter) : FilterResult :=
  let failures :=
    Filter.liquidityRule pair filter ++
    Filter.volumeRule pair filter ++
    Filter.ageRule now pair filter ++
    Filter.holdersRule metrics filter ++
    Filter.concentrationRule metrics ++
    Filter.liqRatioRule pair filter ++
    Filter.buySellRule pair filter ++
    Filter.washTradingRule now pair
  { passes := failures.isEmpty, failures := failures }

/-- Translation of `GraduationWatcher.calculateScore`: base 5, additive
branches, final clamp `Math.max(0, Math.min(10, score))`. -/
def calculateScore (pair : DexScreenerPair) (metrics : TokenMetrics) : ℚ :=
  let score : ℚ := 5
  -- Volume momentum (5m vs 1h average)
  let vol5m := orZero pair.volumeM5
  let vol1hAvg := orZero pair.volumeH1 / 12
  let score :=
    if vol5m > vol1hAvg * 2 then score + 3/2
    else if vol5m > vol1hAvg * (3/2) then score + 1
    else if vol5m < vol1hAvg * (1/2) then score - 1
    else score
  -- Liquidity health
  let liq := orZero pair.liquidityUsd
  let score :=
    if liq > 50000 then score + 1
    else if liq > 20000 then score + 1/2
    else if liq < 5000 then score - 1
    else score
  -- Buy/sell ratio
  let buys := orZero pair.txnsM5Buys
  let sells := orZero pair.txnsM5Sells
  let ratio := if sells > 0 then buys / sells else if buys > 0 then 2 else 1
  let score :=
    if ratio > 2 then score + 1
    else if ratio > 3/2 then score + 1/2
    else if ratio < 1/2 then score - 3/2
    else score
  -- Price momentum
  let priceChange5m := orZero pair.priceChangeM5
  let score :=
    if priceChange5m > 20 then score + 1
    else if priceChange5m > 10 then score + 1/2
    else if priceChange5m < -20 then score - 1
    else score
  -- Market cap sanity
  let mcap := orZero pair.marketCap
  let score :=
    if mcap > 100000 ∧ mcap < 5000000 then score + 1/2
    else if mcap > 10000000 then score - 1/2
    else score
  -- Liquidity to market cap ratio (evaluated only when mcap>0 and liq>0)
  let score :=
    if mcap > 0 ∧ liq > 0 then
      let liqRatio := (liq / mcap) * 100
      if liqRatio ≥ 20 then score + 2
      else if liqRatio ≥ 15 then score + 3/2
      else if liqRatio ≥ 10 then score + 1/2
      else if liqRatio < 5 then score - 3
      else if liqRatio < 8 then score - 2
      else score
    else score
  -- Holder distribution
  let holders := metrics.holders
  let score :=
    if holders > 200 then score + 1
    else if holders > 100 then score + 1/2
    else if holders < 30 ∧ holders > 0 then score - 1/2
    else score
  -- Top holder concentration (a value of 0 triggers no branch)
  let concentration := metrics.topHolderConcentration
  let score :=
    if concentration > 0 then
      if concentration < 20 then score + 1
      else if concentration < 35 then score + 1/2
      else if concentration > 60 then score - 1
      else if concentration > 45 then score - 1/2
      else score
    else score
  max 0 (min 10 score)

/-- Translation of `GraduationWatcher.generateWarnings` (advisory badges
for the unfiltered scan mode). -/
def generateWarnings (pair : DexScreenerPair) (metrics : TokenMetrics) :
    List FilterFailure :=
  let mcap := orZero pair.marketCap
  let liq := orZero pair.liquidityUsd
  let liqRatio := if mcap > 0 then (liq / mcap) * 100 else 0
  let buys := orZero pair.txnsM5Buys
  let sells := orZero pair.txnsM5Sells
  (if liqRatio > 0 ∧ liqRatio < 5 then [FilterFailure.warnLiqDrained]
   else if liqRatio > 0 ∧ liqRatio < 8 then [FilterFailure.warnLowLiqRatio]
   else []) ++
  (if metrics.topHolderConcentration > 60 then [FilterFailure.warnTop10Above60]
   else if metrics.topHolderConcentration > 40 then [FilterFailure.warnTop10Above40]
   else []) ++
  (if orZero pair.volumeM5 = 0 ∧ orZero pair.volumeH1 = 0 then
     [FilterFailure.warnNoVolume]
   else []) ++
  (if sells > 0 ∧ buys > 0 ∧ buys / sells < 3/10 then
     [FilterFailure.warnHeavySellPressure]
   else []) ++
  (if liq > 0 ∧ liq < 5000 then [FilterFailure.warnLowLiq5k] else []) ++
  (if ¬ (pair.infoSocials.getD []).length > 0 ∧
      ¬ (pair.infoWebsites.getD []).length > 0 then
     [FilterFailure.warnNoSocials]
   else [])

/-- The hard-reject condition of `scanAllGraduations`:
`(liqRatio > 0 && liqRatio < 3) || metrics.topHolderConcentration > 80`
where `liqRatio = mcap > 0 ? liq/mcap*100 : 0`. -/
def isAbsoluteScam (pair : DexScreenerPair) (metrics : TokenMetrics) : Bool :=
  let mcap := orZero pair.marketCap
  let liq := orZero pair.liquidityUsd
  let liqRatio := if mcap > 0 then (liq / mcap) * 100 else 0
  (liqRatio > 0 ∧ liqRatio < 3) ∨ metrics.topHolderConcentration > 80

/-- The `PumpFunGraduation` record built by the scan operations.
`graduatedAt` keeps the epoch-millis value passed to `new Date(...)`. -/
structure PumpFunGraduation where
  mint : String
  symbol : String
  name : String
  graduatedAt : ℚ
  bondingCurveAddress : String
  raydiumPairAddress : String
  initialLiquidity : ℚ
  initialMarketCap : ℚ
  creatorAddress : String
  imageUrl : Option String
deriving DecidableEq, Repr

/-- Translation of `GraduationCandidate`. -/
structure GraduationCandidate where
  graduation : PumpFunGraduation
  pair : DexScreenerPair
  metrics : TokenMetrics
  score : ℚ
  passesFilter : Bool
  filterFailures : List FilterFailure
deriving DecidableEq, Repr

/-- The graduation record all three scans build from a pair (identical
field assignments in the three scan bodies). -/
def graduationOf (pair : DexScreenerPair) : PumpFunGraduation :=
  { mint := pair.baseTokenAddress
    symbol := pair.baseTokenSymbol
    name := pair.baseTokenName
    graduatedAt := pair.pairCreatedAt
    bondingCurveAddress := ""
    raydiumPairAddress := pair.pairAddress
    initialLiquidity := orZero pair.liquidityUsd
    initialMarketCap := orZero pair.marketCap
    creatorAddress := ""
    imageUrl := pair.infoImageUrl }

/-- One pair together with the outcome of the two Helius enrichment calls
for it. `holderCount` and `concentration` are the values produced by
`getTokenHolderCount(...).catch(() => 0)` and
`getTopHolderConcentration(...).catch(() => 0)`: a failed call yields 0. -/
structure ScanInput where
  pair : DexScreenerPair
  holderCount : ℕ
  concentration : ℚ
deriving DecidableEq, Repr

/-- The enrichment assignment of `scanForGraduations` and
`scanFreshGraduations`: `metrics.holders = holderCount || 100` and
`metrics.topHolderConcentration = topHolderConcentration || 25`. -/
def enrichWithDefaults (metrics : TokenMetrics) (holderCount : ℕ)
    (concentration : ℚ) : TokenMetrics :=
  { metrics with
    holders := if holderCount = 0 then 100 else holderCount
    topHolderConcentration := if concentration = 0 then 25 else concentration }

/-- The enrichment assignment of `scanAllGraduations`:
`metrics.holders = holderCount || 0` and
`metrics.topHolderConcentration = topHolderConcentration || 0` (the
identity on the modelled numbers, since `0 || 0 = 0`). -/
def enrichNoDefaults (metrics : TokenMetrics) (holderCount : ℕ)
    (concentration : ℚ) : TokenMetrics :=
  { metrics with
    holders := holderCount
    topHolderConcentration := concentration }

/-- Sort used at the end of `scanForGraduations`:
`candidates.sort((a, b) => b.score - a.score)` (descending by score). -/
def sortByScoreDesc (cs : List GraduationCandidate) : List GraduationCandidate :=
  cs.mergeSort fun a b => decide (b.score ≤ a.score)

/-- Sort used by `scanFreshGraduations` and `scanAllGraduations`:
`(b.pair.pairCreatedAt || 0) - (a.pair.pairCreatedAt || 0)` (descending by
pair-creation time). -/
def sortByCreatedDesc (cs : List GraduationCandidate) : List GraduationCandidate :=
  cs.mergeSort fun a b => decide (b.pair.pairCreatedAt ≤ a.pair.pairCreatedAt)

/-- Translation of `GraduationWatcher.scanForGraduations`. `inputs` stands
for the fetched pair list (from `getLatestPumpFunGraduations(100)`) paired
with each pair's enrichment outcome; the `seenMints.add` bookkeeping has
no effect on the returned list and is omitted. -/
def scanForGraduations (now : ℚ) (filter : GraduationFilter)
    (inputs : List ScanInput) : List GraduationCandidate :=
  sortByScoreDesc <| inputs.map fun e =>
    let metrics := enrichWithDefaults (pairToMetrics now e.pair)
      e.holderCount e.concentration
    let fr := applyFilter now e.pair metrics filter
    { graduation := graduationOf e.pair
      pair := e.pair
      metrics := metrics
      score := calculateScore e.pair metrics
      passesFilter := fr.passes
      filterFailures := fr.failures }

/-- Translation of `GraduationWatcher.scanFreshGraduations`: age pre-filter
(`continue` when `ageMinutes > filter.maxAgeMinutes`), enrichment with
defaults, and only candidates with `passes` are kept, hard-coding
`passesFilter: true, filterFailures: []`. -/
def scanFreshGraduations (now : ℚ) (filter : GraduationFilter)
    (inputs : List ScanInput) : List GraduationCandidate :=
  sortByCreatedDesc <| inputs.filterMap fun e =>
    if (now - e.pair.pairCreatedAt) / (1000 * 60) > filter.maxAgeMinutes then
      none
    else
      let metrics := enrichWithDefaults (pairToMetrics now e.pair)
        e.holderCount e.concentration
      let fr := applyFilter now e.pair metrics filter
      if fr.passes then
        some { graduation := graduationOf e.pair
               pair := e.pair
               metrics := metrics
               score := calculateScore e.pair metrics
               passesFilter := true
               filterFailures := [] }
      else none

/-- Translation of `GraduationWatcher.scanAllGraduations`: the loop skips
pairs older than `maxAgeMinutes` (mirrored here as keeping pairs with
`ageMinutes ≤ maxAgeMinutes`) and pushes a candidate for every remaining
pair, with `passesFilter: !isAbsoluteScam` and the warning badges in
`filterFailures`. -/
def scanAllGraduations (now : ℚ) (maxAgeMinutes : ℚ)
    (inputs : List ScanInput) : List GraduationCandidate :=
  sortByCreatedDesc <|
    (inputs.filter fun e =>
      decide ((now - e.pair.pairCreatedAt) / (1000 * 60) ≤ maxAgeMinutes)).map
    fun e =>
      let metrics := enrichNoDefaults (pairToMetrics now e.pair)
        e.holderCount e.concentration
      { graduation := graduationOf e.pair
        pair := e.pair
        metrics := metrics
        score := calculateScore e.pair metrics
        passesFilter := ! isAbsoluteScam e.pair metrics
        filterFailures := generateWarnings e.pair metrics }

/-!
Autopost schedulers. A scan tick is modelled as a function of the data the
tick reads: the current hour and day (abstracting `new Date().getUTCHours()`
and `new Date(...).toDateString()`), the candidate list the watcher
returned, the recipient configurations, and the stored call logs (a
function from recipient id to its log entries, newest first). The value
returned is the list of dispatch attempts `(recipientId, mint)` the tick
performs, in order.
-/

/-- The call-log fields the schedulers read: the token mint recorded in the
call card and the day component of `createdAt` (an abstract day index
standing for `new Date(log.createdAt).toDateString()`). -/
structure CallLogEntry where
  mint : String
  createdDay : ℕ
deriving DecidableEq, Repr

/-- Translation of the identical `isQuietHours` helpers of
`AutopostService` and `TelegramAutopostService`. -/
def isQuietHours (hour : ℕ) (quietStart quietEnd : Option ℕ) : Bool :=
  match quietStart, quietEnd with
  | some s, some e =>
    if s < e then decide (s ≤ hour ∧ hour < e)
    else decide (s ≤ hour ∨ hour < e)
  | _, _ => false

/-- Guild policy fields read by the Discord scheduler. -/
structure GuildPolicy where
  autopostEnabled : Bool
  maxCallsPerDay : ℕ
  quietHoursStart : Option ℕ
  quietHoursEnd : Option ℕ
deriving DecidableEq, Repr

/-- Guild configuration fields read by the Discord scheduler. -/
structure GuildConfig where
  guildId : String
  guildName : String
  channelId : Option String
  policy : GuildPolicy
deriving DecidableEq, Repr

/-- The `highPotential` selection of `AutopostService.scanAndNotify`:
`candidates.filter(c => c.passesFilter && c.score >= minScore)`. -/
def discordHighPotential (minScore : ℚ)
    (candidates : List GraduationCandidate) : List GraduationCandidate :=
  candidates.filter fun c => c.passesFilter && decide (c.score ≥ minScore)

/-- Translation of the dispatch logic of `AutopostService.scanAndNotify`
(Discord scheduler). Returns the dispatch attempts `(guildId, mint)` of
one tick. `getLogs` models `storage.getCallLogs(guild.guildId)` (fetched
once per guild, before that guild's sends). Skips mirror the source:
autopost disabled, no channel, quiet hours, and the daily-cap check
`callsToday >= maxCallsPerDay`; otherwise every high-potential candidate
is sent. -/
def discordScanAndNotify (hour day : ℕ) (minScore : ℚ)
    (candidates : List GraduationCandidate) (guilds : List GuildConfig)
    (getLogs : String → List CallLogEntry) : List (String × String) :=
  let highPotential := discordHighPotential minScore candidates
  guilds.flatMap fun guild =>
    if ¬ guild.policy.autopostEnabled then []
    else
      match guild.channelId with
      | none => []
      | some _ =>
        if isQuietHours hour guild.policy.quietHoursStart
            guild.policy.quietHoursEnd then []
        else
          let callsToday := ((getLogs guild.guildId).filter
            fun log => decide (log.createdDay = day)).length
          if callsToday ≥ guild.policy.maxCallsPerDay then []
          else highPotential.map fun c => (guild.guildId, c.graduation.mint)

/-- Per-chat threshold fields read by the Telegram scheduler. -/
structure TelegramThresholds where
  minConfidenceScore : ℚ
deriving DecidableEq, Repr

/-- Chat policy fields read by the Telegram scheduler. -/
structure TelegramPolicy where
  autopostEnabled : Bool
  maxCallsPerDay : ℕ
  quietHoursStart : Option ℕ
  quietHoursEnd : Option ℕ
  thresholds : TelegramThresholds
deriving DecidableEq, Repr

/-- Display settings of a Telegram chat (`chat.display?.minScore`). -/
structure TelegramDisplay where
  minScore : Option ℚ
deriving DecidableEq, Repr

/-- Telegram chat configuration fields read by the Telegram scheduler. -/
structure TelegramChatConfig where
  chatId : String
  chatTitle : String
  policy : TelegramPolicy
  display : Option TelegramDisplay
deriving DecidableEq, Repr

/-- JS `chat.display?.minScore || chat.policy.thresholds.minConfidenceScore`. -/
def chatMinScore (chat : TelegramChatConfig) : ℚ :=
  match chat.display with
  | some d =>
    match d.minScore with
    | some s => if s = 0 then chat.policy.thresholds.minConfidenceScore else s
    | none => chat.policy.thresholds.minConfidenceScore
  | none => chat.policy.thresholds.minConfidenceScore

/-- The `highPotential` selection of `TelegramAutopostService.scanAndNotify`:
`isNew && (c.passesFilter && c.score >= minScore)` where `isNew` checks the
scheduler's seen-set. -/
def telegramHighPotential (minScore : ℚ) (seen : List String)
    (candidates : List GraduationCandidate) : List GraduationCandidate :=
  candidates.filter fun c =>
    ! seen.contains c.graduation.mint &&
      (c.passesFilter && decide (c.score ≥ minScore))

/-- The seen-set update of `TelegramAutopostService.scanAndNotify`: all
high-potential mints are added (insertion order), then the set is trimmed
to 500 entries by evicting oldest-first. The JS `Set` is modelled as a
list in insertion order; the mints added are not already present (they
passed the `isNew` filter) and are pairwise distinct in a real scan, so
list append models set insertion. -/
def telegramSeenAfter (seen : List String)
    (highPotential : List GraduationCandidate) : List String :=
  let s := seen ++ highPotential.map fun c => c.graduation.mint
  if s.length > 500 then s.drop (s.length - 500) else s

/-- Translation of the dispatch logic of
`TelegramAutopostService.scanAndNotify`. Returns the dispatch attempts
`(chatId, mint)` of one tick together with the updated seen-set.
`storedLogs` models the per-chat stored call logs, newest first; the tick
reads `getCallLogs(chat.chatId, 100)`, i.e. the first 100 entries, once
per chat. A candidate whose mint appears in those fetched logs is skipped
(`alreadyPosted`); the daily cap is checked once per chat before the
per-candidate loop. -/
def telegramScanAndNotify (hour day : ℕ) (minScore : ℚ)
    (candidates : List GraduationCandidate) (seen : List String)
    (allChats : List TelegramChatConfig)
    (storedLogs : String → List CallLogEntry) :
    List (String × String) × List String :=
  let chats := allChats.filter fun c => c.policy.autopostEnabled
  let highPotential := telegramHighPotential minScore seen candidates
  let dispatches := chats.flatMap fun chat =>
    if isQuietHours hour chat.policy.quietHoursStart
        chat.policy.quietHoursEnd then []
    else
      let logs := (storedLogs chat.chatId).take 100
      let callsToday := (logs.filter
        fun log => decide (log.createdDay = day)).length
      if callsToday ≥ chat.policy.maxCallsPerDay then []
      else
        let chatCandidates := highPotential.filter
          fun c => decide (c.score ≥ chatMinScore chat)
        (chatCandidates.filter fun c =>
            ! (logs.map fun log => log.mint).contains c.graduation.mint).map
          fun c => (chat.chatId, c.graduation.mint)
  (dispatches, telegramSeenAfter seen highPotential)

/-!
Latest-listings cache (`DexScreenerProvider.getLatestSolanaPairs`). The
provider keeps one `Map` from cache key to `{ data, timestamp }` with a
30-second TTL. `getLatestSolanaPairs` always uses the constant key
`latest-solana-pairs`, so the state relevant to it is that single entry.
The HTTP fetch is modelled by the `fetchedPairs` parameter (the `pairs`
field of a successful response); the error paths that return `[]` without
caching are not involved in the cache-key behaviour.
-/

/-- Cache slot of the `latest-solana-pairs` key: `{ data, timestamp }`. -/
structure LatestPairsCacheState where
  entry : Option (List DexScreenerPair × ℚ)
deriving DecidableEq, Repr

/-- The Raydium/Solana filter with first-occurrence dedupe by base-token
address shared by the two listing fetchers (`seenMints` accumulates only
addresses of kept pairs, mirroring the JS closure). -/
def filterRaydiumDedupe : List DexScreenerPair → List String →
    List DexScreenerPair
  | [], _ => []
  | p :: rest, seen =>
    if p.dexId = "raydium" ∧ p.chainId = "solana" ∧
        ¬ p.baseTokenAddress ∈ seen then
      p :: filterRaydiumDedupe rest (p.baseTokenAddress :: seen)
    else filterRaydiumDedupe rest seen

/-- Translation of `DexScreenerProvider.getLatestSolanaPairs`: cache key is
the constant `latest-solana-pairs` (the `limit` argument is not part of
the key); a hit within the 30000 ms TTL returns the cached data unsliced;
a miss filters, dedupes, slices to `limit` and caches the slice. -/
def getLatestSolanaPairs (now : ℚ) (limit : ℕ)
    (fetchedPairs : List DexScreenerPair) (st : LatestPairsCacheState) :
    List DexScreenerPair × LatestPairsCacheState :=
  match st.entry with
  | some (data, ts) =>
    if now - ts < 30000 then (data, st)
    else
      let result := (filterRaydiumDedupe fetchedPairs []).take limit
      (result, ⟨some (result, now)⟩)
  | none =>
    let result := (filterRaydiumDedupe fetchedPairs []).take limit
    (result, ⟨some (result, now)⟩)

/-!
Test fixtures and helper predicates used by the verification theorems.
-/

/-- Baseline pair on the target exchange/chain with every optional market
field absent (`|| 0` thus yields 0 everywhere) and creation time 0. -/
def samplePair : DexScreenerPair :=
  { baseTokenAddress := "mintA"
    baseTokenSymbol := "AAA"
    baseTokenName := "Token A"
    pairAddress := "pairA"
    dexId := "raydium"
    chainId := "solana"
    priceUsd := 0
    liquidityUsd := none
    marketCap := none
    volumeM5 := none
    volumeH1 := none
    volumeH24 := none
    priceChangeM5 := none
    priceChangeH24 := none
    txnsM5Buys := none
    txnsM5Sells := none
    pairCreatedAt := 0
    infoSocials := none
    infoWebsites := none
    infoImageUrl := none }

/-- A candidate as the schedulers receive it from the watcher: passes the
filter, with the given mint and score. -/
def passingCandidate (mint : String) (score : ℚ) : GraduationCandidate :=
  { graduation := { graduationOf samplePair with mint := mint }
    pair := samplePair
    metrics := pairToMetrics 0 samplePair
    score := score
    passesFilter := true
    filterFailures := [] }

/-- Decides whether a failure list records the liquidity-ratio rule. -/
def hasLiqRatioFailure (fs : List FilterFailure) : Bool :=
  fs.any fun f =>
    match f with
    | .liqRatioBelow _ _ => true
    | _ => false

/-- Decides whether a failure list records the holders-below-threshold
rule. -/
def hasHoldersFailure (fs : List FilterFailure) : Bool :=
  fs.any fun f =>
    match f with
    | .holdersBelow _ _ => true
    | _ => false

lemma headD_mem {α : Type _} {xs : List α} (d : α) (h : xs ≠ []) :
    xs.headD d ∈ xs := by
  cases xs with
  | nil => exact absurd rfl h
  | cons a t => exact List.mem_cons_self a t

lemma hasLiqRatioFailure_append (a b : List FilterFailure) :
    hasLiqRatioFailure (a ++ b) =
      (hasLiqRatioFailure a || hasLiqRatioFailure b) :=
  List.any_append

lemma hasHoldersFailure_append (a b : List FilterFailure) :
    hasHoldersFailure (a ++ b) =
      (hasHoldersFailure a || hasHoldersFailure b) :=
  List.any_append

lemma hasLiqRatioFailure_liquidityRule (pair : DexScreenerPair)
    (filter : GraduationFilter) :
    hasLiqRatioFailure (Filter.liquidityRule pair filter) = false := by
  unfold Filter.liquidityRule hasLiqRatioFailure
  split_ifs <;> rfl

lemma hasLiqRatioFailure_volumeRule (pair : DexScreenerPair)
    (filter : GraduationFilter) :
    hasLiqRatioFailure (Filter.volumeRule pair filter) = false := by
  unfold Filter.volumeRule hasLiqRatioFailure
  split_ifs <;> rfl

lemma hasLiqRatioFailure_ageRule (now : ℚ) (pair : DexScreenerPair)
    (filter : GraduationFilter) :
    hasLiqRatioFailure (Filter.ageRule now pair filter) = false := by
  unfold Filter.ageRule hasLiqRatioFailure
  dsimp only
  split_ifs <;> rfl

lemma hasLiqRatioFailure_holdersRule (metrics : TokenMetrics)
    (filter : GraduationFilter) :
    hasLiqRatioFailure (Filter.holdersRule metrics filter) = false := by
  unfold Filter.holdersRule hasLiqRatioFailure
  split_ifs <;> rfl

lemma hasLiqRatioFailure_concentrationRule (metrics : TokenMetrics) :
    hasLiqRatioFailure (Filter.concentrationRule metrics) = false := by
  unfold Filter.concentrationRule hasLiqRatioFailure
  split_ifs <;> rfl

lemma hasLiqRatioFailure_buySellRule (pair : DexScreenerPair)
    (filter : GraduationFilter) :
    hasLiqRatioFailure (Filter.buySellRule pair filter) = false := by
  unfold Filter.buySellRule hasLiqRatioFailure
  dsimp only
  split_ifs <;> rfl

lemma hasLiqRatioFailure_washTradingRule (now : ℚ)
    (pair : DexScreenerPair) :
    hasLiqRatioFailure (Filter.washTradingRule now pair) = false := by
  unfold Filter.washTradingRule hasLiqRatioFailure
  dsimp only
  split_ifs <;> rfl

/-- Only the liquidity-ratio rule of `applyFilter` can record a
liquidity-ratio failure. -/
lemma applyFilter_hasLiqRatio (now : ℚ) (pair : DexScreenerPair)
    (metrics : TokenMetrics) (filter : GraduationFilter) :
    hasLiqRatioFailure (applyFilter now pair metrics filter).failures =
      hasLiqRatioFailure (Filter.liqRatioRule pair filter) := by
  simp [applyFilter, hasLiqRatioFailure_append,
    hasLiqRatioFailure_liquidityRule, hasLiqRatioFailure_volumeRule,
    hasLiqRatioFailure_ageRule, hasLiqRatioFailure_holdersRule,
    hasLiqRatioFailure_concentrationRule, hasLiqRatioFailure_buySellRule,
    hasLiqRatioFailure_washTradingRule]

/-- The liquidity-ratio rule fires exactly when both market cap and
liquidity are positive and the percentage ratio is strictly below the
(defaulted) floor. -/
lemma hasLiqRatioFailure_liqRatioRule (pair : DexScreenerPair)
    (filter : GraduationFilter) :
    hasLiqRatioFailure (Filter.liqRatioRule pair filter) = true ↔
      (0 < orZero pair.marketCap ∧ 0 < orZero pair.liquidityUsd) ∧
        (orZero pair.liquidityUsd / orZero pair.marketCap) * 100 <
          orDefault filter.minLiquidityRatio 8 := by
  unfold Filter.liqRatioRule hasLiqRatioFailure
  dsimp only
  split_ifs with h1 h2 <;>
    simp_all [gt_iff_lt]

lemma hasHoldersFailure_liquidityRule (pair : DexScreenerPair)
    (filter : GraduationFilter) :
    hasHoldersFailure (Filter.liquidityRule pair filter) = false := by
  unfold Filter.liquidityRule hasHoldersFailure
  split_ifs <;> rfl

lemma hasHoldersFailure_volumeRule (pair : DexScreenerPair)
    (filter : GraduationFilter) :
    hasHoldersFailure (Filter.volumeRule pair filter) = false := by
  unfold Filter.volumeRule hasHoldersFailure
  split_ifs <;> rfl

lemma hasHoldersFailure_ageRule (now : ℚ) (pair : DexScreenerPair)
    (filter : GraduationFilter) :
    hasHoldersFailure (Filter.ageRule now pair filter) = false := by
  unfold Filter.ageRule hasHoldersFailure
  dsimp only
  split_ifs <;> rfl

lemma hasHoldersFailure_concentrationRule (metrics : TokenMetrics) :
    hasHoldersFailure (Filter.concentrationRule metrics) = false := by
  unfold Filter.concentrationRule hasHoldersFailure
  split_ifs <;> rfl

lemma hasHoldersFailure_liqRatioRule (pair : DexScreenerPair)
    (filter : GraduationFilter) :
    hasHoldersFailure (Filter.liqRatioRule pair filter) = false := by
  unfold Filter.liqRatioRule hasHoldersFailure
  dsimp only
  split_ifs <;> rfl

lemma hasHoldersFailure_buySellRule (pair : DexScreenerPair)
    (filter : GraduationFilter) :
    hasHoldersFailure (Filter.buySellRule pair filter) = false := by
  unfold Filter.buySellRule hasHoldersFailure
  dsimp only
  split_ifs <;> rfl

lemma hasHoldersFailure_washTradingRule (now : ℚ)
    (pair : DexScreenerPair) :
    hasHoldersFailure (Filter.washTradingRule now pair) = false := by
  unfold Filter.washTradingRule hasHoldersFailure
  dsimp only
  split_ifs <;> rfl

/-- Only the holder-count rule of `applyFilter` can record a
holders-below-threshold failure. -/
lemma applyFilter_hasHolders (now : ℚ) (pair : DexScreenerPair)
    (metrics : TokenMetrics) (filter : GraduationFilter) :
    hasHoldersFailure (applyFilter now pair metrics filter).failures =
      hasHoldersFailure (Filter.holdersRule metrics filter) := by
  simp [applyFilter, hasHoldersFailure_append,
    hasHoldersFailure_liquidityRule, hasHoldersFailure_volumeRule,
    hasHoldersFailure_ageRule, hasHoldersFailure_concentrationRule,
    hasHoldersFailure_liqRatioRule, hasHoldersFailure_buySellRule,
    hasHoldersFailure_washTradingRule]

/-- Claim C7: for every pair and metrics input, whatever the magnitude of
the inputs, the score returned by the scoring function lies in the closed
interval [0, 10]. -/
theorem calculateScore_mem_Icc (pair : DexScreenerPair)
    (metrics : TokenMetrics) :
    0 ≤ calculateScore pair metrics ∧ calculateScore pair metrics ≤ 10 := by
  unfold calculateScore
  exact ⟨le_max_left _ _, max_le (by norm_num) (min_le_left _ _)⟩

/-- Fallback candidate used as the `headD` default when naming the first
element of a concrete scan result. -/
def fallbackCandidate : GraduationCandidate :=
  { graduation := graduationOf samplePair
    pair := samplePair
    metrics := pairToMetrics 0 samplePair
    score := 0
    passesFilter := false
    filterFailures := [] }

/-- Claim C1 counterexample: `scanAllGraduations` emits a candidate with
`passesFilter = true` and a non-empty `filterFailures` list. A pair with
market cap 100000 and liquidity 6000 (ratio 6%, no hard-reject) gets the
low-liquidity-ratio, no-volume and no-socials warning badges stored in
`filterFailures` while `passesFilter` is true, so the claimed equivalence
fails for the third scan operation. -/
theorem scanAll_passes_with_nonempty_failures :
    (scanAllGraduations 0 120
        [⟨{ samplePair with marketCap := some 100000,
                            liquidityUsd := some 6000 }, 50, 10⟩]).map
        (fun c => (c.passesFilter, c.filterFailures.isEmpty)) =
      [(true, false)] := by
  norm_num [scanAllGraduations, sortByCreatedDesc, enrichNoDefaults,
    pairToMetrics, generateWarnings, isAbsoluteScam, orZero, orDefault,
    samplePair, graduationOf, List.filter]

/-- Claim C1 amended: in `scanForGraduations` and `scanFreshGraduations`,
`passesFilter` is true exactly when `filterFailures` is empty; in
`scanAllGraduations`, `passesFilter` equals the negation of the
hard-reject condition and `filterFailures` holds the advisory warning
badges, which can be non-empty on a passing candidate. -/
theorem passesFilter_characterization :
    (∀ (now : ℚ) (filter : GraduationFilter) (inputs : List ScanInput)
        (c : GraduationCandidate), c ∈ scanForGraduations now filter inputs →
        (c.passesFilter = true ↔ c.filterFailures = [])) ∧
    (∀ (now : ℚ) (filter : GraduationFilter) (inputs : List ScanInput)
        (c : GraduationCandidate), c ∈ scanFreshGraduations now filter inputs →
        (c.passesFilter = true ↔ c.filterFailures = [])) ∧
    (∀ (now maxAge : ℚ) (inputs : List ScanInput)
        (c : GraduationCandidate), c ∈ scanAllGraduations now maxAge inputs →
        c.passesFilter = ! isAbsoluteScam c.pair c.metrics ∧
        c.filterFailures = generateWarnings c.pair c.metrics) := by
  refine ⟨?_, ?_, ?_⟩
  · intro now filter inputs c hc
    unfold scanForGraduations sortByScoreDesc at hc
    rw [List.mem_mergeSort, List.mem_map] at hc
    obtain ⟨e, _, rfl⟩ := hc
    simp [applyFilter, List.isEmpty_iff]
  · intro now filter inputs c hc
    unfold scanFreshGraduations sortByCreatedDesc at hc
    rw [List.mem_mergeSort, List.mem_filterMap] at hc
    obtain ⟨e, _, hfe⟩ := hc
    dsimp only at hfe
    split_ifs at hfe with h1 h2
    all_goals
      first
        | exact Option.noConfusion hfe
        | (rw [Option.some_inj] at hfe
           subst hfe
           exact iff_of_true rfl rfl)
  · intro now maxAge inputs c hc
    unfold scanAllGraduations sortByCreatedDesc at hc
    rw [List.mem_mergeSort, List.mem_map] at hc
    obtain ⟨e, _, rfl⟩ := hc
    exact ⟨rfl, rfl⟩

/-- The first candidate of a standard scan of the baseline pair. -/
def c1candidate : GraduationCandidate :=
  (scanForGraduations 0 DEFAULT_GRADUATION_FILTER
    [⟨samplePair, 0, 0⟩]).headD fallbackCandidate

/-- Claim C1 amended witness: the candidate produced by a concrete
standard scan satisfies the equivalence. -/
theorem passesFilter_characterization_witness :
    c1candidate ∈ scanForGraduations 0 DEFAULT_GRADUATION_FILTER
        [⟨samplePair, 0, 0⟩] ∧
      (c1candidate.passesFilter = true ↔ c1candidate.filterFailures = []) := by
  have hlen : (scanForGraduations 0 DEFAULT_GRADUATION_FILTER
      [⟨samplePair, 0, 0⟩]).length = 1 := by
    simp [scanForGraduations, sortByScoreDesc, List.length_mergeSort]
  have hne : scanForGraduations 0 DEFAULT_GRADUATION_FILTER
      [⟨samplePair, 0, 0⟩] ≠ [] := by
    intro h
    rw [h] at hlen
    simp at hlen
  have hmem := headD_mem fallbackCandidate hne
  exact ⟨hmem,
    passesFilter_characterization.1 0 DEFAULT_GRADUATION_FILTER
      [⟨samplePair, 0, 0⟩] c1candidate hmem⟩

/-- Claim C4 counterexample: a candidate meeting the hard-reject condition
(top-holder concentration 90% > 80%) within the age window is NOT excluded
from the list `scanAllGraduations` returns — it is surfaced with
`passesFilter = false`, contradicting the claim that hard-rejected
candidates are the ones excluded from the returned list. -/
theorem scanAll_returns_hard_rejected :
    (scanAllGraduations 0 120
        [⟨{ samplePair with marketCap := some 100000,
                            liquidityUsd := some 10000 }, 50, 90⟩]).map
        (fun c => (c.graduation.mint, c.passesFilter)) =
      [("mintA", false)] ∧
    isAbsoluteScam
        { samplePair with marketCap := some 100000,
                          liquidityUsd := some 10000 }
        (enrichNoDefaults
          (pairToMetrics 0
            { samplePair with marketCap := some 100000,
                              liquidityUsd := some 10000 }) 50 90) =
      true := by
  constructor <;>
    norm_num [scanAllGraduations, sortByCreatedDesc, enrichNoDefaults,
      pairToMetrics, isAbsoluteScam, orZero, samplePair, graduationOf,
      List.filter]

/-- Claim C4 amended: `scanAllGraduations` excludes only candidates
outside the age window — it returns one candidate per in-window input.
Hard-rejected candidates are not dropped; the hard-reject condition is
recorded as `passesFilter = false`, and `filterFailures` carries the
advisory warning badges. -/
theorem scanAll_age_only_exclusion :
    ∀ (now maxAge : ℚ) (inputs : List ScanInput),
      (scanAllGraduations now maxAge inputs).length =
        (inputs.filter fun e =>
          decide ((now - e.pair.pairCreatedAt) / (1000 * 60) ≤ maxAge)).length ∧
      ∀ c ∈ scanAllGraduations now maxAge inputs,
        c.passesFilter = ! isAbsoluteScam c.pair c.metrics ∧
        c.filterFailures = generateWarnings c.pair c.metrics := by
  intro now maxAge inputs
  constructor
  · simp [scanAllGraduations, sortByCreatedDesc, List.length_mergeSort]
  · intro c hc
    unfold scanAllGraduations sortByCreatedDesc at hc
    rw [List.mem_mergeSort, List.mem_map] at hc
    obtain ⟨e, _, rfl⟩ := hc
    exact ⟨rfl, rfl⟩

/-- The candidate of a concrete unfiltered scan of the baseline pair. -/
def c4candidate : GraduationCandidate :=
  (scanAllGraduations 0 120 [⟨samplePair, 50, 10⟩]).headD fallbackCandidate

/-- Claim C4 amended witness: a concrete in-window input yields exactly
one returned candidate, and its `passesFilter` flag equals the negated
hard-reject condition. -/
theorem scanAll_age_only_exclusion_witness :
    c4candidate ∈ scanAllGraduations 0 120 [⟨samplePair, 50, 10⟩] ∧
      c4candidate.passesFilter =
        ! isAbsoluteScam c4candidate.pair c4candidate.metrics := by
  have hlen : (scanAllGraduations 0 120 [⟨samplePair, 50, 10⟩]).length = 1 := by
    simp [scanAllGraduations, sortByCreatedDesc, List.length_mergeSort,
      List.filter, samplePair]
  have hne : scanAllGraduations 0 120 [⟨samplePair, 50, 10⟩] ≠ [] := by
    intro h
    rw [h] at hlen
    simp at hlen
  have hmem := headD_mem fallbackCandidate hne
  exact ⟨hmem,
    ((scanAll_age_only_exclusion 0 120 [⟨samplePair, 50, 10⟩]).2
      c4candidate hmem).1⟩

/-- Claim C8: for every policy and every metrics with `holders = 0`, the
Filter Engine records no holders-below-threshold failure: the `minHolders`
rule can only fail when `metrics.holders > 0`. -/
theorem holders_zero_no_holders_failure (now : ℚ) (pair : DexScreenerPair)
    (metrics : TokenMetrics) (filter : GraduationFilter)
    (h : metrics.holders = 0) :
    hasHoldersFailure (applyFilter now pair metrics filter).failures =
      false := by
  rw [applyFilter_hasHolders]
  unfold Filter.holdersRule hasHoldersFailure
  rw [h]
  simp

/-- Claim C8 witness: the baseline metrics (no enrichment) have zero
holders, and the Default-policy filter run on them records no
holders-below-threshold failure. -/
theorem holders_zero_no_holders_failure_witness :
    (pairToMetrics 0 samplePair).holders = 0 ∧
      hasHoldersFailure
        (applyFilter 0 samplePair (pairToMetrics 0 samplePair)
          DEFAULT_GRADUATION_FILTER).failures = false :=
  ⟨by norm_num [pairToMetrics, samplePair],
   holders_zero_no_holders_failure 0 samplePair (pairToMetrics 0 samplePair)
     DEFAULT_GRADUATION_FILTER (by norm_num [pairToMetrics, samplePair])⟩

/-- Claim C2 counterexample: under the Default policy
(`minLiquidityRatio = 8`), a candidate with `marketCap = 100000` and
`liquidity.usd = 8000` — liquidity ratio exactly 8% — does NOT record a
liquidity-ratio failure: the comparison is strict (`8 < 8` is false),
whereas the claim says this exact boundary value must fail. -/
theorem liqRatio_exact_boundary_no_failure :
    hasLiqRatioFailure
      (applyFilter 0
        { samplePair with marketCap := some 100000,
                          liquidityUsd := some 8000 }
        (pairToMetrics 0 samplePair) DEFAULT_GRADUATION_FILTER).failures =
      false := by
  rw [applyFilter_hasLiqRatio]
  unfold Filter.liqRatioRule hasLiqRatioFailure
  norm_num [orZero, orDefault, DEFAULT_GRADUATION_FILTER]

/-- Claim C2 amended: under the Default policy, for a pair with positive
market cap `mc` and positive liquidity `l`, the Filter Engine records a
liquidity-ratio failure exactly when `(l / mc) * 100 < 8` (strict `<`):
a ratio of exactly 8% passes the rule, 7.99% fails it, and 8.01% passes
it. -/
theorem default_liqRatio_failure_iff (now : ℚ) (pair : DexScreenerPair)
    (metrics : TokenMetrics) (mc l : ℚ)
    (hmc : pair.marketCap = some mc) (hl : pair.liquidityUsd = some l)
    (hmc0 : 0 < mc) (hl0 : 0 < l) :
    hasLiqRatioFailure
        (applyFilter now pair metrics DEFAULT_GRADUATION_FILTER).failures =
        true ↔
      (l / mc) * 100 < 8 := by
  rw [applyFilter_hasLiqRatio, hasLiqRatioFailure_liqRatioRule]
  norm_num [orZero, hmc, hl, orDefault, DEFAULT_GRADUATION_FILTER,
    hmc0, hl0]

/-- Claim C2 amended witness: at `marketCap = 100000` and
`liquidity = 7990` (ratio 7.99%) the Default policy records the
liquidity-ratio failure. -/
theorem default_liqRatio_failure_iff_witness :
    hasLiqRatioFailure
      (applyFilter 0
        { samplePair with marketCap := some 100000,
                          liquidityUsd := some 7990 }
        (pairToMetrics 0 samplePair) DEFAULT_GRADUATION_FILTER).failures =
      true :=
  (default_liqRatio_failure_iff 0
    { samplePair with marketCap := some 100000,
                      liquidityUsd := some 7990 }
    (pairToMetrics 0 samplePair) 100000 7990 rfl rfl (by norm_num)
    (by norm_num)).mpr (by norm_num)

/-- Call log used by the Discord re-dispatch counterexample: every guild
already has one call for mint `mintZ` logged on day 0. -/
def c5logs : String → List CallLogEntry := fun _ => [⟨"mintZ", 0⟩]

/-- Claim C5 counterexample: the Discord scheduler
(`AutopostService.scanAndNotify`) performs no per-recipient mint dedupe:
with mint `mintZ` already present in guild `g1`'s call log, a tick whose
candidate list contains `mintZ` dispatches it to `g1` again. -/
theorem discord_redispatches_logged_mint :
    "mintZ" ∈ (c5logs "g1").map CallLogEntry.mint ∧
      ("g1", "mintZ") ∈ discordScanAndNotify 12 0 (13/2)
        [passingCandidate "mintZ" 7]
        [⟨"g1", "Guild One", some "chan1", ⟨true, 10, none, none⟩⟩]
        c5logs := by
  constructor
  · norm_num [c5logs]
  · norm_num [discordScanAndNotify, discordHighPotential, isQuietHours,
      passingCandidate, c5logs, graduationOf, samplePair, List.filter,
      List.flatMap]

/-- Claim C5 amended: the Telegram scheduler
(`TelegramAutopostService.scanAndNotify`) never dispatches to a chat a
candidate whose mint appears in the call-log entries it fetched for that
chat (the 100 most recent stored entries); the Discord scheduler has no
such per-recipient dedupe and can re-dispatch a logged mint. -/
theorem telegram_no_dispatch_of_logged_mint :
    ∀ (hour day : ℕ) (minScore : ℚ) (candidates : List GraduationCandidate)
      (seen : List String) (allChats : List TelegramChatConfig)
      (storedLogs : String → List CallLogEntry) (chatId mint : String),
      (chatId, mint) ∈
        (telegramScanAndNotify hour day minScore candidates seen allChats
          storedLogs).1 →
      ¬ mint ∈ ((storedLogs chatId).take 100).map CallLogEntry.mint := by
  intro hour day minScore candidates seen allChats storedLogs chatId mint h
    hmem
  unfold telegramScanAndNotify at h
  dsimp only at h
  rw [List.mem_flatMap] at h
  obtain ⟨chat, _, hd⟩ := h
  split_ifs at hd with hq hcap
  · cases hd
  · cases hd
  · rw [List.mem_map] at hd
    obtain ⟨c, hc, heq⟩ := hd
    rw [List.mem_filter] at hc
    obtain ⟨-, hcontains⟩ := hc
    obtain ⟨hchat, hmint⟩ := Prod.mk.injEq .. ▸ heq
    subst hchat
    subst hmint
    rw [Bool.not_eq_true'] at hcontains
    exact absurd hmem (by simpa using hcontains)

/-- Claim C5 amended witness: on a concrete tick with an empty call log
the Telegram scheduler dispatches the candidate, and its mint is indeed
absent from the fetched log entries. -/
theorem telegram_no_dispatch_of_logged_mint_witness :
    ("c1", "mintZ") ∈
        (telegramScanAndNotify 12 0 (13/2) [passingCandidate "mintZ" 7] []
          [⟨"c1", "Chat One", ⟨true, 10, none, none, ⟨5⟩⟩, none⟩]
          (fun _ => [])).1 ∧
      ¬ "mintZ" ∈
        (((fun _ : String => ([] : List CallLogEntry)) "c1").take 100).map
          CallLogEntry.mint := by
  have hmem : ("c1", "mintZ") ∈
      (telegramScanAndNotify 12 0 (13/2) [passingCandidate "mintZ" 7] []
        [⟨"c1", "Chat One", ⟨true, 10, none, none, ⟨5⟩⟩, none⟩]
        (fun _ => [])).1 := by
    norm_num [telegramScanAndNotify, telegramHighPotential,
      telegramSeenAfter, chatMinScore, isQuietHours, passingCandidate,
      graduationOf, samplePair, List.filter, List.flatMap]
  exact ⟨hmem,
    telegram_no_dispatch_of_logged_mint 12 0 (13/2)
      [passingCandidate "mintZ" 7] []
      [⟨"c1", "Chat One", ⟨true, 10, none, none, ⟨5⟩⟩, none⟩]
      (fun _ => []) "c1" "mintZ" hmem⟩

/-- Claim C6 counterexample: in both schedulers the daily cap is only
checked at the start of a tick. With `maxCallsPerDay = 1` and two
qualifying candidates in one tick, the Discord scheduler and the Telegram
scheduler each dispatch both candidates: after the first dispatch the
day's dispatched count equals the cap, yet a further dispatch occurs in
the same UTC day. -/
theorem schedulers_overshoot_daily_cap :
    (discordScanAndNotify 12 0 (13/2)
        [passingCandidate "m1" 7, passingCandidate "m2" 7]
        [⟨"g1", "Guild One", some "chan1", ⟨true, 1, none, none⟩⟩]
        (fun _ => []) = [("g1", "m1"), ("g1", "m2")] ∧
      (⟨"g1", "Guild One", some "chan1", ⟨true, 1, none, none⟩⟩ :
        GuildConfig).policy.maxCallsPerDay = 1) ∧
    (telegramScanAndNotify 12 0 (13/2)
        [passingCandidate "m1" 7, passingCandidate "m2" 7] []
        [⟨"c1", "Chat One", ⟨true, 1, none, none, ⟨5⟩⟩, none⟩]
        (fun _ => [])).1 = [("c1", "m1"), ("c1", "m2")] ∧
      (⟨"c1", "Chat One", ⟨true, 1, none, none, ⟨5⟩⟩, none⟩ :
        TelegramChatConfig).policy.maxCallsPerDay = 1 := by
  refine ⟨⟨?_, rfl⟩, ?_, rfl⟩
  · norm_num [discordScanAndNotify, discordHighPotential, isQuietHours,
      passingCandidate, graduationOf, samplePair, List.filter,
      List.flatMap]
  · norm_num [telegramScanAndNotify, telegramHighPotential,
      telegramSeenAfter, chatMinScore, isQuietHours, passingCandidate,
      graduationOf, samplePair, List.filter, List.flatMap]

/-- Claim C6 amended: in both schedulers the daily cap is enforced at the
start of each tick: a dispatch to a recipient happens only if that
recipient's count of logged calls for the current day was strictly below
`maxCallsPerDay` when the tick read its logs (the Discord tick reads the
guild's full log, the Telegram tick the chat's 100 most recent entries).
Since logs only grow within a day, once the tick-start count reaches the
cap no later tick that day dispatches to that recipient; within a single
tick that started below the cap, all qualifying candidates are dispatched
without re-checking, which can overshoot the cap. -/
theorem dispatch_requires_cap_headroom :
    (∀ (hour day : ℕ) (minScore : ℚ) (candidates : List GraduationCandidate)
      (guilds : List GuildConfig) (getLogs : String → List CallLogEntry)
      (guildId mint : String),
      (guildId, mint) ∈
        discordScanAndNotify hour day minScore candidates guilds getLogs →
      ∃ guild ∈ guilds, guild.guildId = guildId ∧
        guild.policy.autopostEnabled = true ∧
        ((getLogs guild.guildId).filter
          (fun log => decide (log.createdDay = day))).length <
          guild.policy.maxCallsPerDay) ∧
    ∀ (hour day : ℕ) (minScore : ℚ) (candidates : List GraduationCandidate)
      (seen : List String) (allChats : List TelegramChatConfig)
      (storedLogs : String → List CallLogEntry) (chatId mint : String),
      (chatId, mint) ∈
        (telegramScanAndNotify hour day minScore candidates seen allChats
          storedLogs).1 →
      ∃ chat ∈ allChats, chat.chatId = chatId ∧
        chat.policy.autopostEnabled = true ∧
        (((storedLogs chat.chatId).take 100).filter
          (fun log => decide (log.createdDay = day))).length <
          chat.policy.maxCallsPerDay := by
  constructor
  · intro hour day minScore candidates guilds getLogs guildId mint h
    unfold discordScanAndNotify at h
    dsimp only at h
    rw [List.mem_flatMap] at h
    obtain ⟨guild, hguild, hd⟩ := h
    rcases hgc : guild.channelId with _ | ch <;> rw [hgc] at hd <;>
      dsimp only at hd
    · split_ifs at hd <;> cases hd
    · split_ifs at hd
      all_goals
        first
          | cases hd
          | (rw [List.mem_map] at hd
             obtain ⟨c, -, heq⟩ := hd
             obtain ⟨hguildId, -⟩ := Prod.mk.injEq .. ▸ heq
             exact ⟨guild, hguild, hguildId, by tauto, by omega⟩)
  · intro hour day minScore candidates seen allChats storedLogs chatId mint h
    unfold telegramScanAndNotify at h
    dsimp only at h
    rw [List.mem_flatMap] at h
    obtain ⟨chat, hchat, hd⟩ := h
    rw [List.mem_filter] at hchat
    obtain ⟨hchatMem, hen⟩ := hchat
    split_ifs at hd with hq hcap
    · cases hd
    · cases hd
    · rw [List.mem_map] at hd
      obtain ⟨c, _, heq⟩ := hd
      obtain ⟨hchatId, -⟩ := Prod.mk.injEq .. ▸ heq
      exact ⟨chat, hchatMem, hchatId, hen, by omega⟩

/-- Claim C6 amended witness: on concrete ticks of each scheduler the
dispatched recipient's tick-start daily call count (0) is below its cap
(10). -/
theorem dispatch_requires_cap_headroom_witness :
    (("g1", "m1") ∈
        discordScanAndNotify 12 0 (13/2) [passingCandidate "m1" 7]
          [⟨"g1", "Guild One", some "chan1", ⟨true, 10, none, none⟩⟩]
          (fun _ => []) ∧
      ∃ guild ∈ ([⟨"g1", "Guild One", some "chan1", ⟨true, 10, none, none⟩⟩] :
          List GuildConfig), guild.guildId = "g1" ∧
        guild.policy.autopostEnabled = true ∧
        (((fun _ : String => ([] : List CallLogEntry)) guild.guildId).filter
          (fun log => decide (log.createdDay = 0))).length <
          guild.policy.maxCallsPerDay) ∧
    ("c1", "m1") ∈
        (telegramScanAndNotify 12 0 (13/2) [passingCandidate "m1" 7] []
          [⟨"c1", "Chat One", ⟨true, 10, none, none, ⟨5⟩⟩, none⟩]
          (fun _ => [])).1 ∧
      ∃ chat ∈ ([⟨"c1", "Chat One", ⟨true, 10, none, none, ⟨5⟩⟩, none⟩] :
          List TelegramChatConfig), chat.chatId = "c1" ∧
        chat.policy.autopostEnabled = true ∧
        ((((fun _ : String => ([] : List CallLogEntry)) chat.chatId).take
          100).filter (fun log => decide (log.createdDay = 0))).length <
          chat.policy.maxCallsPerDay := by
  have hmemD : ("g1", "m1") ∈
      discordScanAndNotify 12 0 (13/2) [passingCandidate "m1" 7]
        [⟨"g1", "Guild One", some "chan1", ⟨true, 10, none, none⟩⟩]
        (fun _ => []) := by
    norm_num [discordScanAndNotify, discordHighPotential, isQuietHours,
      passingCandidate, graduationOf, samplePair, List.filter,
      List.flatMap]
  have hmemT : ("c1", "m1") ∈
      (telegramScanAndNotify 12 0 (13/2) [passingCandidate "m1" 7] []
        [⟨"c1", "Chat One", ⟨true, 10, none, none, ⟨5⟩⟩, none⟩]
        (fun _ => [])).1 := by
    norm_num [telegramScanAndNotify, telegramHighPotential,
      telegramSeenAfter, chatMinScore, isQuietHours, passingCandidate,
      graduationOf, samplePair, List.filter, List.flatMap]
  exact ⟨⟨hmemD,
      dispatch_requires_cap_headroom.1 12 0 (13/2) [passingCandidate "m1" 7]
        [⟨"g1", "Guild One", some "chan1", ⟨true, 10, none, none⟩⟩]
        (fun _ => []) "g1" "m1" hmemD⟩,
    hmemT,
    dispatch_requires_cap_headroom.2 12 0 (13/2) [passingCandidate "m1" 7] []
      [⟨"c1", "Chat One", ⟨true, 10, none, none, ⟨5⟩⟩, none⟩]
      (fun _ => []) "c1" "m1" hmemT⟩

/-- Claim C3 counterexample: the scoring function applied to all-zero
inputs (the baseline pair with no liquidity, volume, transactions, price
change or market cap, and metrics with zero holders and concentration)
does not return the base value 5: the liquidity-health branch
`liq < 5000` fires at liquidity 0 and subtracts 1. -/
theorem score_zero_inputs_ne_five :
    calculateScore samplePair (pairToMetrics 0 samplePair) ≠ 5 := by
  norm_num [calculateScore, pairToMetrics, samplePair, orZero, orDefault]

/-- Claim C3 amended: the scoring function applied to all-zero inputs
returns exactly 4: the only branch that fires is the liquidity-health
penalty (`liquidity < 5000` holds at liquidity 0), which subtracts 1 from
the base value 5. -/
theorem score_zero_inputs_eq_four :
    calculateScore samplePair (pairToMetrics 0 samplePair) = 4 := by
  norm_num [calculateScore, pairToMetrics, samplePair, orZero, orDefault]

/-- Claim C9 counterexample: `getLatestSolanaPairs` caches under the
constant key, not under `(endpoint, limit)`. After a call with limit 2
caches two pairs, a call with limit 1 inside the TTL window is served
from cache and returns 2 pairs — more than its `limit` argument. -/
theorem latest_pairs_cache_ignores_limit :
    ¬ ((getLatestSolanaPairs 1000 1
          [samplePair, { samplePair with baseTokenAddress := "mintB" }]
          (getLatestSolanaPairs 0 2
            [samplePair, { samplePair with baseTokenAddress := "mintB" }]
            ⟨none⟩).2).1.length ≤ 1) := by
  norm_num [getLatestSolanaPairs, filterRaydiumDedupe, samplePair]
  decide

/-- Claim C9 amended: the `getLatestSolanaPairs` cache is keyed by the
endpoint only. A call served from cache (fresh entry within the 30 s TTL)
returns exactly the previously cached list, whatever its `limit` argument,
and leaves the cache unchanged; a call that misses the cache returns the
filtered, deduplicated fetch sliced to at most `limit` pairs and caches
that slice. -/
theorem latest_pairs_cache_endpoint_keyed :
    ∀ (now : ℚ) (limit : ℕ) (fetched : List DexScreenerPair)
      (st : LatestPairsCacheState),
      (∀ data ts, st.entry = some (data, ts) → now - ts < 30000 →
        (getLatestSolanaPairs now limit fetched st).1 = data ∧
        (getLatestSolanaPairs now limit fetched st).2 = st) ∧
      ((∀ data ts, st.entry = some (data, ts) → ¬ now - ts < 30000) →
        (getLatestSolanaPairs now limit fetched st).1 =
          (filterRaydiumDedupe fetched []).take limit ∧
        (getLatestSolanaPairs now limit fetched st).1.length ≤ limit ∧
        (getLatestSolanaPairs now limit fetched st).2.entry =
          some ((getLatestSolanaPairs now limit fetched st).1, now)) := by
  intro now limit fetched st
  obtain ⟨entry⟩ := st
  cases entry with
  | none =>
    refine ⟨fun data ts h => Option.noConfusion h, fun _ => ?_⟩
    refine ⟨rfl, ?_, rfl⟩
    exact List.length_take_le limit _
  | some e =>
    obtain ⟨data, ts⟩ := e
    by_cases hfresh : now - ts < 30000
    · refine ⟨fun d t h ht => ?_, fun hstale => absurd hfresh (hstale data ts rfl)⟩
      obtain ⟨rfl, rfl⟩ := Prod.mk.injEq .. ▸ Option.some_inj.mp h
      simp [getLatestSolanaPairs, hfresh]
    · refine ⟨fun d t h ht => ?_, fun _ => ?_⟩
      · obtain ⟨rfl, rfl⟩ := Prod.mk.injEq .. ▸ Option.some_inj.mp h
        exact absurd ht hfresh
      · refine ⟨by simp [getLatestSolanaPairs, hfresh], ?_,
          by simp [getLatestSolanaPairs, hfresh]⟩
        have hres : (getLatestSolanaPairs now limit fetched
            ⟨some (data, ts)⟩).1 = (filterRaydiumDedupe fetched []).take limit := by
          simp [getLatestSolanaPairs, hfresh]
        rw [hres]
        exact List.length_take_le limit _

/-- Claim C9 amended witness: a concrete cache hit (entry 0 ms old, call
at 1000 ms, limit 1) returns the cached singleton unchanged. -/
theorem latest_pairs_cache_endpoint_keyed_witness :
    (getLatestSolanaPairs 1000 1 [] ⟨some ([samplePair], 0)⟩).1 =
      [samplePair] :=
  ((latest_pairs_cache_endpoint_keyed 1000 1 []
    ⟨some ([samplePair], 0)⟩).1 [samplePair] 0 rfl (by norm_num)).1

/-- Claim C10: in the standard and fresh scan modes, a failed or zero
holder-count enrichment yields `holders = 100` and a failed or zero
concentration yields `topHolderConcentration = 25`; consequently (given
that the concentration enrichment, a sum of non-negative percentages, is
never negative) every candidate those two modes emit has positive holders
and positive concentration, so the `holders == 0` filter exemption and
the `concentration == 0` scorer skip are unreachable there. -/
theorem standard_scans_enrichment_positive :
    (∀ metrics : TokenMetrics, enrichWithDefaults metrics 0 0 =
      { metrics with holders := 100, topHolderConcentration := 25 }) ∧
    ∀ (now : ℚ) (filter : GraduationFilter) (inputs : List ScanInput),
      (∀ e ∈ inputs, 0 ≤ e.concentration) →
      (∀ c ∈ scanForGraduations now filter inputs,
        0 < c.metrics.holders ∧ 0 < c.metrics.topHolderConcentration) ∧
      (∀ c ∈ scanFreshGraduations now filter inputs,
        0 < c.metrics.holders ∧ 0 < c.metrics.topHolderConcentration) := by
  have hpos : ∀ (now : ℚ) (e : ScanInput), 0 ≤ e.concentration →
      0 < (enrichWithDefaults (pairToMetrics now e.pair) e.holderCount
        e.concentration).holders ∧
      0 < (enrichWithDefaults (pairToMetrics now e.pair) e.holderCount
        e.concentration).topHolderConcentration := by
    intro now e he
    dsimp only [enrichWithDefaults]
    constructor
    · split_ifs with h
      · norm_num
      · omega
    · split_ifs with h
      · norm_num
      · exact lt_of_le_of_ne he (Ne.symm h)
  refine ⟨fun m => by simp [enrichWithDefaults], ?_⟩
  intro now filter inputs hconc
  constructor
  · intro c hc
    unfold scanForGraduations sortByScoreDesc at hc
    rw [List.mem_mergeSort, List.mem_map] at hc
    obtain ⟨e, he, rfl⟩ := hc
    exact hpos now e (hconc e he)
  · intro c hc
    unfold scanFreshGraduations sortByCreatedDesc at hc
    rw [List.mem_mergeSort, List.mem_filterMap] at hc
    obtain ⟨e, he, hfe⟩ := hc
    dsimp only at hfe
    split_ifs at hfe with h1 h2
    all_goals
      first
        | exact Option.noConfusion hfe
        | (rw [Option.some_inj] at hfe
           subst hfe
           exact hpos now e (hconc e he))

/-- Claim C10 witness: the candidate from a concrete standard scan whose
enrichment returned 0/0 has positive holders and concentration. -/
theorem standard_scans_enrichment_positive_witness :
    0 < c1candidate.metrics.holders ∧
      0 < c1candidate.metrics.topHolderConcentration := by
  have hlen : (scanForGraduations 0 DEFAULT_GRADUATION_FILTER
      [⟨samplePair, 0, 0⟩]).length = 1 := by
    simp [scanForGraduations, sortByScoreDesc, List.length_mergeSort]
  have hne : scanForGraduations 0 DEFAULT_GRADUATION_FILTER
      [⟨samplePair, 0, 0⟩] ≠ [] := by
    intro h
    rw [h] at hlen
    simp at hlen
  have hmem := headD_mem fallbackCandidate hne
  exact (standard_scans_enrichment_positive.2 0 DEFAULT_GRADUATION_FILTER
    [⟨samplePair, 0, 0⟩] (by norm_num)).1 c1candidate hmem

end BlueClaw
